import Mathlib

/-!
Shallow embedding of the AllFind search-orchestration core
(`src/orchestrator.py`, `src/types.py`) and verification of its
specification's claims.

Python strings are modelled as lists of characters (`PyStr`); Python `int`
as `Int` (so negative `limit` values and Python's negative-slice semantics
are representable); `float` scores as rationals (ordering is all the code
uses; NaN/inf never arise in the claims). `Dict[str, Any]` values are never
read by the orchestrator — only key membership is tested — so dictionaries
are embedded as lists of their keys.
-/

namespace AllFind

/-- Python strings as lists of characters. -/
abbrev PyStr := List Char

/-- `Platform(str, Enum)` from `types.py`. -/
inductive Platform where
  | GOOGLE_DRIVE
  | NOTION
  deriving DecidableEq

/-- `SearchMethod(str, Enum)` from `types.py`. -/
inductive SearchMethod where
  | KEYWORD
  | SEMANTIC
  | FULL_TEXT
  | METADATA
  deriving DecidableEq

/-- `SearchQuery` from `types.py`.  `filters: Optional[Dict[str, Any]]` is
embedded as the optional list of its keys (the orchestrator only ever tests
key membership, never values). -/
structure SearchQuery where
  query : PyStr
  platform : Option Platform := none
  method : Option SearchMethod := none
  filters : Option (List PyStr) := none
  limit : Int := 10
  deriving DecidableEq

/-- `SearchResult` from `types.py`; `score: float` is embedded as `Rat`
(only its ordering is used), `metadata` as its key list. -/
structure SearchResult where
  id : PyStr
  title : PyStr
  content : Option PyStr := none
  url : PyStr
  platform : Platform
  score : Rat
  metadata : List PyStr := []
  deriving DecidableEq

/-- `SearchResponse` from `types.py`. -/
structure SearchResponse where
  results : List SearchResult
  query : SearchQuery
  total_results : Int
  platforms_searched : List Platform
  method_used : SearchMethod
  deriving DecidableEq

/-! ### Python string primitives used by the orchestrator -/

/-- `b` is an initial segment of `a` (Python `str.startswith` /
a regex match anchored at the start). -/
def strStartsWith : PyStr → PyStr → Bool
  | _, [] => true
  | [], _ :: _ => false
  | c :: cs, d :: ds => c = d && strStartsWith cs ds

/-- `needle in hay` for Python strings (substring containment). -/
def strContains : PyStr → PyStr → Bool
  | [], needle => needle.isEmpty
  | c :: tl, needle => strStartsWith (c :: tl) needle || strContains tl needle

/-- Python `str.lower()` (ASCII case folding suffices for the embedded
keyword lists, which are all ASCII). -/
def toLowerStr (s : PyStr) : PyStr := s.map Char.toLower

/-- Python `str.strip()`: drop leading and trailing whitespace. -/
def pyStrip (s : PyStr) : PyStr :=
  ((s.dropWhile Char.isWhitespace).reverse.dropWhile Char.isWhitespace).reverse

/-- Python `str.split()` with no argument: the maximal non-whitespace runs,
empty chunks discarded. -/
def pyWords (s : PyStr) : List PyStr :=
  (s.splitOnP Char.isWhitespace).filter (fun w => ¬ w.isEmpty)

/-- Python `lst[:k]` for an arbitrary (possibly negative) `int` slice bound. -/
def pySlice (l : List α) (k : Int) : List α :=
  if 0 ≤ k then l.take k.toNat else l.take (l.length - (-k).toNat)

/-- The apostrophe character (`chr(39)`). -/
def apos : Char := Char.ofNat 39

/-! ### Query classifier (`SearchOrchestrator.determine_platforms` /
`determine_search_method`) -/

/-- `google_keywords = ['drive', 'docs', 'sheets', 'slides', 'document']`. -/
def google_keywords : List PyStr :=
  ["drive".toList, "docs".toList, "sheets".toList, "slides".toList,
   "document".toList]

/-- `notion_keywords = ['notion', 'page', 'database', 'workspace']`. -/
def notion_keywords : List PyStr :=
  ["notion".toList, "page".toList, "database".toList, "workspace".toList]

/-- `has_google_hint = any(keyword in query_lower for keyword in google_keywords)`. -/
def has_google_hint (q : SearchQuery) : Bool :=
  google_keywords.any (fun k => strContains (toLowerStr q.query) k)

/-- `has_notion_hint = any(keyword in query_lower for keyword in notion_keywords)`. -/
def has_notion_hint (q : SearchQuery) : Bool :=
  notion_keywords.any (fun k => strContains (toLowerStr q.query) k)

/-- `SearchOrchestrator.determine_platforms`. -/
def determine_platforms (q : SearchQuery) : List Platform :=
  match q.platform with
  | some p => [p]
  | none =>
    if has_google_hint q && !(has_notion_hint q) then [Platform.GOOGLE_DRIVE]
    else if has_notion_hint q && !(has_google_hint q) then [Platform.NOTION]
    else [Platform.GOOGLE_DRIVE, Platform.NOTION]

/-- The recognized metadata filter keys, in source order:
`['date', 'author', 'modified_date', 'created_date', 'owner']`. -/
def metadata_keys : List PyStr :=
  ["date".toList, "author".toList, "modified_date".toList,
   "created_date".toList, "owner".toList]

/-- `query.filters and any(key in query.filters for key in [...])`:
true iff `filters` is present (an absent or empty dict is falsy) and holds
at least one recognized key. -/
def has_metadata_filter (q : SearchQuery) : Bool :=
  match q.filters with
  | none => false
  | some ks => metadata_keys.any (fun k => ks.contains k)

/-- The wh-words of the pattern `^\s*(what|how|why|when|where|who)`. -/
def wh_words : List PyStr :=
  ["what".toList, "how".toList, "why".toList, "when".toList,
   "where".toList, "who".toList]

/-- `re.search(r'^\s*(what|how|why|when|where|who)', s, re.IGNORECASE)`:
on the (already stripped) text this is a case-insensitive prefix match —
a prefix of a longer word also matches. -/
def startsWithWh (s : PyStr) : Bool :=
  wh_words.any (fun w => strStartsWith (toLowerStr s) w)

/-- `re.search(r'\?$', s)`: the text ends with a question mark. -/
def endsWithQuestionMark (s : PyStr) : Bool :=
  s.getLast? == some '?'

/-- The alternatives of the pattern `explain|describe|tell me about`. -/
def explain_words : List PyStr :=
  ["explain".toList, "describe".toList, "tell me about".toList]

/-- `re.search(r'explain|describe|tell me about', s, re.IGNORECASE)`:
case-insensitive substring containment. -/
def containsExplainWord (s : PyStr) : Bool :=
  explain_words.any (fun w => strContains (toLowerStr s) w)

/-- `any(re.search(pattern, query_text, re.IGNORECASE) for pattern in
question_patterns)`. -/
def isQuestionLike (s : PyStr) : Bool :=
  startsWithWh s || endsWithQuestionMark s || containsExplainWord s

/-- `SearchOrchestrator.determine_search_method`. -/
def determine_search_method (q : SearchQuery) : SearchMethod :=
  match q.method with
  | some m => m
  | none =>
    if '"' ∈ pyStrip q.query ∨ apos ∈ pyStrip q.query then
      SearchMethod.FULL_TEXT
    else if has_metadata_filter q then SearchMethod.METADATA
    else if isQuestionLike (pyStrip q.query) then SearchMethod.SEMANTIC
    else if 8 < (pyWords (pyStrip q.query)).length then SearchMethod.SEMANTIC
    else SearchMethod.KEYWORD

/-! ### Dispatch and aggregation (`SearchOrchestrator.search` /
`_search_platform`) -/

/-- Modelled from the spec: the Capability Contract (§4.2/§6) —
`search(query, method) → results | failure`.  The repository declares the
per-platform retrieval bodies only as TODO stubs, so the retriever itself
is an abstract collaborator; `none` is its distinct failure signal
(network/auth/quota, §7). -/
def Retriever : Type :=
  SearchQuery → SearchMethod → Option (List SearchResult)

/-- `SearchOrchestrator.__init__` state: the two optional retrievers
(both initialized to `None` in the source). -/
structure SearchOrchestrator where
  google_drive_retriever : Option Retriever := none
  notion_retriever : Option Retriever := none

/-- `SearchOrchestrator._search_platform`: an unconfigured retriever
(`None`) contributes `[]`.  Modelled from the spec: a configured
retriever's failure signal is likewise treated as zero results for that
platform (§7 "caught per-platform … treated as zero results"); the
invocation bodies `_search_google_drive` / `_search_notion` are TODO stubs
in the source. -/
def _search_platform (st : SearchOrchestrator) (q : SearchQuery)
    (platform : Platform) (method : SearchMethod) : List SearchResult :=
  match platform with
  | Platform.GOOGLE_DRIVE =>
    match st.google_drive_retriever with
    | none => []
    | some r => match r q method with
      | none => []
      | some rs => rs
  | Platform.NOTION =>
    match st.notion_retriever with
    | none => []
    | some r => match r q method with
      | none => []
      | some rs => rs

/-- One step of Python's stable `list.sort(key=score, reverse=True)`:
insert `x` before the first element whose score is `≤ x.score`, i.e. after
every strictly greater element and before every earlier-inserted tie. -/
def ordInsertDesc (x : SearchResult) : List SearchResult → List SearchResult
  | [] => [x]
  | y :: ys =>
    if y.score ≤ x.score then x :: y :: ys else y :: ordInsertDesc x ys

/-- `all_results.sort(key=lambda x: x.score, reverse=True)`: a stable sort
by score descending (equal scores keep their original relative order, as
Python's sort guarantees). -/
def pySortDesc : List SearchResult → List SearchResult
  | [] => []
  | x :: xs => ordInsertDesc x (pySortDesc xs)

/-- `SearchOrchestrator.search`: classify, dispatch per platform in
selection order, concatenate, stable-sort by score descending, truncate to
`limit` (Python slice semantics), assemble the response. -/
def search (st : SearchOrchestrator) (q : SearchQuery) : SearchResponse :=
  let platforms := determine_platforms q
  let method := determine_search_method q
  let all_results :=
    (platforms.map (fun p => _search_platform st q p method)).flatten
  let sorted := pySortDesc all_results
  { results := pySlice sorted q.limit
    query := q
    total_results := (sorted.length : Int)
    platforms_searched := platforms
    method_used := method }

/-- The concatenation, in platform-selection order, of the per-platform
result lists that dispatch produces for `q` (the `all_results` list of
`search` before sorting). -/
def dispatched (st : SearchOrchestrator) (q : SearchQuery) : List SearchResult :=
  ((determine_platforms q).map
    (fun p => _search_platform st q p (determine_search_method q))).flatten

/-- Platform `p`'s retriever is unconfigured/unavailable (`None`) or
signals failure on this request — the three spec failure modes that all
surface as "this platform is down for this call". -/
def retrieverFails (st : SearchOrchestrator) (q : SearchQuery)
    (m : SearchMethod) (p : Platform) : Prop :=
  match p with
  | Platform.GOOGLE_DRIVE =>
    st.google_drive_retriever = none ∨
      ∃ r, st.google_drive_retriever = some r ∧ r q m = none
  | Platform.NOTION =>
    st.notion_retriever = none ∨
      ∃ r, st.notion_retriever = some r ∧ r q m = none

/-! ### Helper lemmas -/

/-- Inserting an element is a permutation of pushing it on the front. -/
theorem ordInsertDesc_perm (x : SearchResult) (l : List SearchResult) :
    List.Perm (ordInsertDesc x l) (x :: l) := by
  induction l with
  | nil => simp [ordInsertDesc]
  | cons y ys ih =>
    by_cases h : y.score ≤ x.score
    · simp [ordInsertDesc, h]
    · simp only [ordInsertDesc, if_neg h]
      exact (List.Perm.cons y ih).trans (List.Perm.swap x y ys)

/-- The stable sort permutes its input. -/
theorem pySortDesc_perm (l : List SearchResult) :
    List.Perm (pySortDesc l) l := by
  induction l with
  | nil => exact List.Perm.refl _
  | cons x xs ih =>
    exact (ordInsertDesc_perm x (pySortDesc xs)).trans (List.Perm.cons x ih)

/-- The stable sort preserves length. -/
theorem pySortDesc_length (l : List SearchResult) :
    (pySortDesc l).length = l.length :=
  (pySortDesc_perm l).length_eq

/-- Insertion preserves descending-by-score ordering. -/
theorem pairwise_ordInsertDesc {x : SearchResult} {l : List SearchResult}
    (h : l.Pairwise (fun a b => b.score ≤ a.score)) :
    (ordInsertDesc x l).Pairwise (fun a b => b.score ≤ a.score) := by
  induction l with
  | nil => simp [ordInsertDesc]
  | cons y ys ih =>
    rcases List.pairwise_cons.mp h with ⟨hy, hys⟩
    by_cases hxy : y.score ≤ x.score
    · simp only [ordInsertDesc, if_pos hxy]
      refine List.Pairwise.cons ?_ h
      intro z hz
      rcases List.mem_cons.mp hz with rfl | hz
      · exact hxy
      · exact le_trans (hy z hz) hxy
    · simp only [ordInsertDesc, if_neg hxy]
      refine List.Pairwise.cons ?_ (ih hys)
      intro z hz
      rcases List.mem_cons.mp ((ordInsertDesc_perm x ys).subset hz) with rfl | hz'
      · exact le_of_lt (lt_of_not_le hxy)
      · exact hy z hz'

/-- The stable sort's output is sorted by score, descending. -/
theorem pySortDesc_pairwise (l : List SearchResult) :
    (pySortDesc l).Pairwise (fun a b => b.score ≤ a.score) := by
  induction l with
  | nil => simp [pySortDesc]
  | cons x xs ih => exact pairwise_ordInsertDesc ih

/-- Inserting an element whose score is `s` puts it in front of every
equal-scored element already present. -/
theorem ordInsertDesc_filter_pos {x : SearchResult} {s : Rat}
    (hx : x.score = s) (l : List SearchResult) :
    (ordInsertDesc x l).filter (fun z => decide (z.score = s)) =
      x :: l.filter (fun z => decide (z.score = s)) := by
  induction l with
  | nil => simp [ordInsertDesc, hx]
  | cons y ys ih =>
    rw [show ordInsertDesc x (y :: ys) =
        if y.score ≤ x.score then x :: y :: ys
        else y :: ordInsertDesc x ys from rfl]
    by_cases hxy : y.score ≤ x.score
    · rw [if_pos hxy, List.filter_cons_of_pos (by simp [hx])]
    · have hy : ¬ y.score = s := fun hys =>
        hxy (le_of_eq (hys.trans hx.symm))
      rw [if_neg hxy, List.filter_cons_of_neg (by simp [hy]), ih,
        List.filter_cons_of_neg (by simp [hy])]

/-- Inserting an element of a different score leaves an equal-score
filter unchanged. -/
theorem ordInsertDesc_filter_neg {x : SearchResult} {s : Rat}
    (hx : ¬ x.score = s) (l : List SearchResult) :
    (ordInsertDesc x l).filter (fun z => decide (z.score = s)) =
      l.filter (fun z => decide (z.score = s)) := by
  induction l with
  | nil => simp [ordInsertDesc, hx]
  | cons y ys ih =>
    rw [show ordInsertDesc x (y :: ys) =
        if y.score ≤ x.score then x :: y :: ys
        else y :: ordInsertDesc x ys from rfl]
    by_cases hxy : y.score ≤ x.score
    · rw [if_pos hxy, List.filter_cons_of_neg (by simp [hx])]
    · rw [if_neg hxy]
      simp only [List.filter_cons, ih]

/-- Stability: for each score value, the sort preserves the relative order
of the elements carrying that score. -/
theorem pySortDesc_filter_score (s : Rat) (l : List SearchResult) :
    (pySortDesc l).filter (fun z => decide (z.score = s)) =
      l.filter (fun z => decide (z.score = s)) := by
  induction l with
  | nil => rfl
  | cons x xs ih =>
    by_cases hx : x.score = s
    · show (ordInsertDesc x (pySortDesc xs)).filter _ = _
      rw [ordInsertDesc_filter_pos hx, ih, List.filter_cons_of_pos (by simp [hx])]
    · show (ordInsertDesc x (pySortDesc xs)).filter _ = _
      rw [ordInsertDesc_filter_neg hx, ih,
        List.filter_cons_of_neg (by simp [hx])]

/-- For a non-negative bound, the Python slice `l[:k]` is `take`. -/
theorem pySlice_of_nonneg {k : Int} (hk : 0 ≤ k) (l : List α) :
    pySlice l k = l.take k.toNat := by
  simp [pySlice, hk]

/-- Dropping a matched prefix never loses an element the predicate
rejects. -/
theorem mem_dropWhile_of_neg {p : Char → Bool} {c : Char} (hc : p c = false)
    (l : List Char) : c ∈ l.dropWhile p ↔ c ∈ l := by
  induction l with
  | nil => simp
  | cons a tl ih =>
    by_cases ha : p a
    · rw [List.dropWhile_cons_of_pos ha, ih]
      constructor
      · exact fun h => List.mem_cons_of_mem a h
      · intro h
        rcases List.mem_cons.mp h with rfl | h
        · rw [hc] at ha; exact absurd ha (by simp)
        · exact h
    · rw [List.dropWhile_cons_of_neg ha]

/-- Stripping surrounding whitespace neither adds nor removes occurrences
of a non-whitespace character. -/
theorem mem_pyStrip {c : Char} (hc : c.isWhitespace = false) (s : PyStr) :
    c ∈ pyStrip s ↔ c ∈ s := by
  unfold pyStrip
  rw [List.mem_reverse, mem_dropWhile_of_neg hc, List.mem_reverse,
    mem_dropWhile_of_neg hc]

/-- The quote test of `determine_search_method` runs on the stripped text,
but quotes are not whitespace, so it is equivalent to a test on the raw
query text. -/
theorem quote_cond_iff (q : SearchQuery) :
    ('"' ∈ pyStrip q.query ∨ apos ∈ pyStrip q.query) ↔
      ('"' ∈ q.query ∨ apos ∈ q.query) := by
  rw [mem_pyStrip (by decide), mem_pyStrip (by decide)]

/-! ### Claim theorems -/

/-- C6: for every query with an explicit method field set,
`determine_search_method` returns exactly that method, unchanged,
ignoring every other characteristic of the query. -/
theorem c6_explicit_method (q : SearchQuery) (m : SearchMethod)
    (hm : q.method = some m) : determine_search_method q = m := by
  simp only [determine_search_method, hm]

/-- C6 witness: a query with quotes, a recognized filter key and an
interrogative text still yields its explicit method verbatim. -/
theorem c6_explicit_method_witness :
    determine_search_method
      ⟨"\"what is the plan?\"".toList, none, some SearchMethod.KEYWORD,
        some ["author".toList], 10⟩ = SearchMethod.KEYWORD :=
  c6_explicit_method _ _ rfl

/-- C3 counterexample: a query whose text contains a double quote but
whose explicit method is KEYWORD is classified KEYWORD, not FULL_TEXT —
the claim as stated ("regardless", with no explicit-method proviso) fails. -/
theorem c3_counterexample :
    '"' ∈ ("\"budget 2024\"".toList : PyStr) ∧
      determine_search_method
        ⟨"\"budget 2024\"".toList, none, some SearchMethod.KEYWORD,
          none, 10⟩ ≠ SearchMethod.FULL_TEXT := by
  decide

/-- C3 (amended): for every query with no explicit method whose text
contains a single or double quote character, `determine_search_method`
returns FULL_TEXT, regardless of the query's length or filters. -/
theorem c3_quotes_full_text (q : SearchQuery) (hm : q.method = none)
    (hq : '"' ∈ q.query ∨ apos ∈ q.query) :
    determine_search_method q = SearchMethod.FULL_TEXT := by
  simp only [determine_search_method, hm]
  rw [if_pos ((quote_cond_iff q).mpr hq)]

/-- C3 witness: a single-quoted phrase with a metadata filter key and an
11-word text is still FULL_TEXT. -/
theorem c3_quotes_full_text_witness :
    determine_search_method
      ⟨apos :: "machine learning pipeline for the quarterly report of the data team".toList
          ++ [apos],
        none, none, some ["date".toList], 10⟩ = SearchMethod.FULL_TEXT :=
  c3_quotes_full_text _ rfl (Or.inr (by decide))

/-- C4 counterexample: a query with an `author` filter and no explicit
method whose text contains an apostrophe is classified FULL_TEXT, not
METADATA — the quote check precedes the filter check, so the claim as
stated fails. -/
theorem c4_counterexample :
    determine_search_method
      ⟨"what".toList ++ (apos :: "s the plan".toList), none, none,
        some ["author".toList], 10⟩ = SearchMethod.FULL_TEXT ∧
      SearchMethod.FULL_TEXT ≠ SearchMethod.METADATA := by
  decide

/-- C4 (amended): for every query whose filters contain at least one of
the keys "author", "date", "owner", "modified_date", "created_date", that
has no explicit method, and whose text contains no quote character,
`determine_search_method` returns METADATA — even if the text also matches
an interrogative pattern. -/
theorem c4_filters_metadata (q : SearchQuery) (hm : q.method = none)
    (hq : ¬ ('"' ∈ q.query ∨ apos ∈ q.query))
    (hf : has_metadata_filter q = true) :
    determine_search_method q = SearchMethod.METADATA := by
  simp only [determine_search_method, hm]
  rw [if_neg (fun h => hq ((quote_cond_iff q).mp h)), if_pos hf]

/-- C4 witness: an interrogative text ("what is the plan") with an
`author` filter and no explicit method is METADATA. -/
theorem c4_filters_metadata_witness :
    determine_search_method
      ⟨"what is the plan".toList, none, none, some ["author".toList],
        10⟩ = SearchMethod.METADATA :=
  c4_filters_metadata _ rfl (by decide) (by decide)

/-- C5: for every query with no explicit method, no quote character and
no recognized metadata filter key, the method is SEMANTIC exactly when the
stripped text matches an interrogative pattern or has more than 8
whitespace-separated tokens, and KEYWORD otherwise. -/
theorem c5_default_semantic_keyword (q : SearchQuery) (hm : q.method = none)
    (hq : ¬ ('"' ∈ q.query ∨ apos ∈ q.query))
    (hf : has_metadata_filter q = false) :
    determine_search_method q =
      (if isQuestionLike (pyStrip q.query) = true ∨
          8 < (pyWords (pyStrip q.query)).length
        then SearchMethod.SEMANTIC else SearchMethod.KEYWORD) := by
  have hf' : ¬ has_metadata_filter q = true := by simp [hf]
  simp only [determine_search_method, hm]
  rw [if_neg (fun h => hq ((quote_cond_iff q).mp h)), if_neg hf']
  by_cases hql : isQuestionLike (pyStrip q.query) = true
  · rw [if_pos hql, if_pos (Or.inl hql)]
  · rw [if_neg hql]
    by_cases hlen : 8 < (pyWords (pyStrip q.query)).length
    · rw [if_pos hlen, if_pos (Or.inr hlen)]
    · have hcond : ¬ (isQuestionLike (pyStrip q.query) = true ∨
          8 < (pyWords (pyStrip q.query)).length) := by
        intro h
        rcases h with h | h
        · exact hql h
        · exact hlen h
      rw [if_neg hlen, if_neg hcond]

/-- C5 witness: "budget" (1 token) is KEYWORD; "what hikes do i have
planned for west virginia?" is SEMANTIC; a 12-token query is SEMANTIC. -/
theorem c5_default_semantic_keyword_witness :
    determine_search_method ⟨"budget".toList, none, none, none, 10⟩ =
        SearchMethod.KEYWORD ∧
      determine_search_method
        ⟨"what hikes do i have planned for west virginia?".toList, none,
          none, none, 10⟩ = SearchMethod.SEMANTIC ∧
      determine_search_method
        ⟨"comprehensive guide to implementing authentication and authorization in our backend system".toList,
          none, none, none, 10⟩ = SearchMethod.SEMANTIC := by
  refine ⟨?_, ?_, ?_⟩
  · rw [c5_default_semantic_keyword _ rfl (by decide) (by decide)]
    decide
  · rw [c5_default_semantic_keyword _ rfl (by decide) (by decide)]
    decide
  · rw [c5_default_semantic_keyword _ rfl (by decide) (by decide)]
    decide

/-- C10: the interrogative check is a prefix match, not a whole-word
match: with no explicit method, no quote and no recognized filter key, a
text whose first non-whitespace characters begin (case-insensitively) with
"what", "how", "why", "when", "where" or "who" — also as a prefix of a
longer word — is classified SEMANTIC. -/
theorem c10_wh_prefix_semantic (q : SearchQuery) (hm : q.method = none)
    (hq : ¬ ('"' ∈ q.query ∨ apos ∈ q.query))
    (hf : has_metadata_filter q = false)
    (hw : startsWithWh (pyStrip q.query) = true) :
    determine_search_method q = SearchMethod.SEMANTIC := by
  have hf' : ¬ has_metadata_filter q = true := by simp [hf]
  have hql : isQuestionLike (pyStrip q.query) = true := by
    simp [isQuestionLike, hw]
  simp only [determine_search_method, hm]
  rw [if_neg (fun h => hq ((quote_cond_iff q).mp h)), if_neg hf',
    if_pos hql]

/-- C10 witness: "Whole grains shopping" begins with the letters "who"
inside the word "Whole" (capitalised, so also case-insensitive) and is
classified SEMANTIC although it is not a question. -/
theorem c10_wh_prefix_semantic_witness :
    determine_search_method
      ⟨"Whole grains shopping".toList, none, none, none, 10⟩ =
      SearchMethod.SEMANTIC :=
  c10_wh_prefix_semantic _ rfl (by decide) (by decide) (by decide)

/-- C7: `determine_platforms` never returns the empty list; an explicit
platform wins outright; otherwise only-drive-hints give the drive
platform, only-notion-hints give the workspace platform, and agreement of
the two hint flags (both or neither) gives all platforms. -/
theorem c7_determine_platforms_spec (q : SearchQuery) :
    determine_platforms q ≠ [] ∧
      (∀ p, q.platform = some p → determine_platforms q = [p]) ∧
      (q.platform = none → has_google_hint q = true →
        has_notion_hint q = false →
        determine_platforms q = [Platform.GOOGLE_DRIVE]) ∧
      (q.platform = none → has_notion_hint q = true →
        has_google_hint q = false →
        determine_platforms q = [Platform.NOTION]) ∧
      (q.platform = none → has_google_hint q = has_notion_hint q →
        determine_platforms q =
          [Platform.GOOGLE_DRIVE, Platform.NOTION]) := by
  refine ⟨?_, ?_, ?_, ?_, ?_⟩
  · rcases hq : q.platform with _ | p
    · simp only [determine_platforms, hq]
      by_cases h1 : (has_google_hint q && !has_notion_hint q) = true
      · simp [h1]
      · by_cases h2 : (has_notion_hint q && !has_google_hint q) = true
        · simp [h1, h2]
        · simp [h1, h2]
    · simp [determine_platforms, hq]
  · intro p hp
    simp [determine_platforms, hp]
  · intro hp hg hn
    simp [determine_platforms, hp, hg, hn]
  · intro hp hn hg
    simp [determine_platforms, hp, hn, hg]
  · intro hp he
    rcases hgb : has_google_hint q with _ | _
    · have hnb : has_notion_hint q = false := by rw [← he, hgb]
      simp [determine_platforms, hp, hgb, hnb]
    · have hnb : has_notion_hint q = true := by rw [← he, hgb]
      simp [determine_platforms, hp, hgb, hnb]

/-- C7 witness: "find my google docs" selects the drive platform alone;
"sprint planning" (no hints) selects all platforms; an explicit platform
is returned alone. -/
theorem c7_determine_platforms_spec_witness :
    determine_platforms ⟨"find my google docs".toList, none, none, none,
        10⟩ = [Platform.GOOGLE_DRIVE] ∧
      determine_platforms ⟨"sprint planning".toList, none, none, none,
        10⟩ = [Platform.GOOGLE_DRIVE, Platform.NOTION] ∧
      determine_platforms ⟨"notion page about api".toList,
        some Platform.GOOGLE_DRIVE, none, none, 10⟩ =
        [Platform.GOOGLE_DRIVE] :=
  ⟨(c7_determine_platforms_spec _).2.2.1 rfl (by decide) (by decide),
   (c7_determine_platforms_spec _).2.2.2.2 rfl (by decide),
   (c7_determine_platforms_spec _).2.1 Platform.GOOGLE_DRIVE rfl⟩

/-- Mapping every element to `[]` flattens to `[]`. -/
theorem flatten_map_eq_nil {α β : Type} (f : α → List β) :
    ∀ ps : List α, (∀ p ∈ ps, f p = []) → (ps.map f).flatten = [] := by
  intro ps h
  induction ps with
  | nil => rfl
  | cons a tl ih =>
    simp only [List.map_cons, List.flatten_cons,
      h a (List.mem_cons_self a tl), List.nil_append]
    exact ih (fun p hp => h p (List.mem_cons_of_mem a hp))

/-! ### Concrete fixtures used by counterexamples and witnesses -/

/-- A drive-side result with score 1. -/
def r1 : SearchResult :=
  ⟨"g1".toList, "t1".toList, none, "u1".toList, Platform.GOOGLE_DRIVE, 1, []⟩

/-- A drive-side result with score 3. -/
def r2 : SearchResult :=
  ⟨"g2".toList, "t2".toList, none, "u2".toList, Platform.GOOGLE_DRIVE, 3, []⟩

/-- A workspace-side result with the same score 3 (a tie with `r2`). -/
def r3 : SearchResult :=
  ⟨"n1".toList, "t3".toList, none, "u3".toList, Platform.NOTION, 3, []⟩

/-- A workspace-side result with score 2. -/
def r4 : SearchResult :=
  ⟨"n2".toList, "t4".toList, none, "u4".toList, Platform.NOTION, 2, []⟩

/-- Both retrievers configured and succeeding. -/
def stBoth : SearchOrchestrator :=
  ⟨some (fun _ _ => some [r1, r2]), some (fun _ _ => some [r3, r4])⟩

/-- A hint-free query with limit 3. -/
def qLimit3 : SearchQuery := ⟨"roadmap overview".toList, none, none, none, 3⟩

/-- Drive retriever configured; workspace one unconfigured. -/
def stDriveOnly : SearchOrchestrator := ⟨some (fun _ _ => some [r1]), none⟩

/-- An empty-text query (the malformed input of the validation claim). -/
def qEmpty : SearchQuery := ⟨[], none, none, none, 10⟩

/-- Drive retriever unconfigured; workspace retriever signals failure. -/
def stAllFail : SearchOrchestrator := ⟨none, some (fun _ _ => none)⟩

/-- Drive retriever unconfigured; workspace retriever succeeds. -/
def stNotionOnly : SearchOrchestrator := ⟨none, some (fun _ _ => some [r3])⟩

/-- Drive retriever succeeds; workspace retriever signals failure. -/
def stNotionFails : SearchOrchestrator :=
  ⟨some (fun _ _ => some [r1]), some (fun _ _ => none)⟩

/-- A hint-free query with the default limit. -/
def qPlain : SearchQuery := ⟨"roadmap overview".toList, none, none, none, 10⟩

/-- C1 counterexample: for an empty-text query, `search` raises no
validation error: the configured drive retriever IS invoked (its sentinel
result reaches the response) and a full SearchResponse IS assembled. -/
theorem c1_counterexample :
    qEmpty.query = [] ∧
      (search stDriveOnly qEmpty).results = [r1] ∧
      (search stDriveOnly qEmpty).total_results = 1 ∧
      (search stDriveOnly qEmpty).platforms_searched =
        [Platform.GOOGLE_DRIVE, Platform.NOTION] ∧
      (search stDriveOnly qEmpty).method_used = SearchMethod.KEYWORD := by
  decide

/-- C1 (amended): the orchestrator performs no validation: for every query
with empty text or non-positive limit, `search` still classifies,
dispatches to the selected retrievers and assembles a complete
SearchResponse (no validation error is ever raised). -/
theorem c1_no_validation (st : SearchOrchestrator) (q : SearchQuery)
    (_h : q.query = [] ∨ q.limit ≤ 0) :
    (search st q).query = q ∧
      (search st q).platforms_searched = determine_platforms q ∧
      (search st q).method_used = determine_search_method q ∧
      (search st q).results =
        pySlice (pySortDesc (dispatched st q)) q.limit ∧
      (search st q).total_results = ((dispatched st q).length : Int) := by
  refine ⟨rfl, rfl, rfl, rfl, ?_⟩
  show ((pySortDesc (dispatched st q)).length : Int) = _
  rw [pySortDesc_length]

/-- C1 witness: the amended claim at the empty-text query. -/
theorem c1_no_validation_witness :
    (search stDriveOnly qEmpty).query = qEmpty ∧
      (search stDriveOnly qEmpty).platforms_searched =
        determine_platforms qEmpty ∧
      (search stDriveOnly qEmpty).method_used =
        determine_search_method qEmpty ∧
      (search stDriveOnly qEmpty).results =
        pySlice (pySortDesc (dispatched stDriveOnly qEmpty)) qEmpty.limit ∧
      (search stDriveOnly qEmpty).total_results =
        ((dispatched stDriveOnly qEmpty).length : Int) :=
  c1_no_validation stDriveOnly qEmpty (Or.inl rfl)

/-- C2: for a positive limit, the response's results are the first `limit`
elements of the stable descending-by-score sort of the per-platform
concatenation, of length at most `limit`; `total_results` is the length of
the concatenation before truncation, hence at least the results length;
the results are sorted by score descending and the sort is stable (each
score class keeps its concatenation order). -/
theorem c2_search_aggregation (st : SearchOrchestrator) (q : SearchQuery)
    (hlim : 0 < q.limit) :
    (search st q).results =
        (pySortDesc (dispatched st q)).take q.limit.toNat ∧
      ((search st q).results.length : Int) ≤ q.limit ∧
      (search st q).total_results = ((dispatched st q).length : Int) ∧
      ((search st q).results.length : Int) ≤ (search st q).total_results ∧
      (search st q).results.Pairwise (fun a b => b.score ≤ a.score) ∧
      (∀ s : Rat,
        (pySortDesc (dispatched st q)).filter
            (fun z => decide (z.score = s)) =
          (dispatched st q).filter (fun z => decide (z.score = s))) := by
  have hres : (search st q).results =
      (pySortDesc (dispatched st q)).take q.limit.toNat := by
    show pySlice (pySortDesc (dispatched st q)) q.limit = _
    rw [pySlice_of_nonneg (le_of_lt hlim)]
  have htot : (search st q).total_results =
      ((dispatched st q).length : Int) := by
    show ((pySortDesc (dispatched st q)).length : Int) = _
    rw [pySortDesc_length]
  have hlen1 : (search st q).results.length ≤ q.limit.toNat := by
    rw [hres, List.length_take]
    exact min_le_left _ _
  have hlen2 : (search st q).results.length ≤ (dispatched st q).length := by
    rw [hres, List.length_take, ← pySortDesc_length (dispatched st q)]
    exact min_le_right _ _
  refine ⟨hres, ?_, htot, ?_, ?_, fun s => pySortDesc_filter_score s _⟩
  · omega
  · rw [htot]
    omega
  · rw [hres]
    exact (pySortDesc_pairwise (dispatched st q)).sublist
      (List.take_sublist _ _)

/-- C2 witness: two platforms, four results with a score tie between the
two platforms; limit 3 keeps the top three, the tie keeps concatenation
order (drive's `r2` before notion's `r3`), and `total_results` stays 4. -/
theorem c2_search_aggregation_witness :
    (search stBoth qLimit3).results = [r2, r3, r4] ∧
      (search stBoth qLimit3).total_results = 4 := by
  have h := c2_search_aggregation stBoth qLimit3 (by decide)
  refine ⟨?_, ?_⟩
  · rw [h.1]
    decide
  · rw [h.2.2.1]
    decide

/-- C8: dispatch failures never abort the request: a platform whose
retriever is unconfigured/unavailable/failing contributes zero results;
if every selected platform fails the response is still assembled, with
empty results and `total_results = 0`; and under any failure pattern
whatsoever, every result a surviving selected platform returns (the
dispatched pool fitting in the limit) still appears in the response's
results. -/
theorem c8_partial_failure (st : SearchOrchestrator) (q : SearchQuery) :
    (∀ p, retrieverFails st q (determine_search_method q) p →
        _search_platform st q p (determine_search_method q) = []) ∧
      ((∀ p ∈ determine_platforms q,
          retrieverFails st q (determine_search_method q) p) →
        (search st q).results = [] ∧ (search st q).total_results = 0) ∧
      (((dispatched st q).length : Int) ≤ q.limit →
        ∀ p ∈ determine_platforms q,
          ∀ x ∈ _search_platform st q p (determine_search_method q),
            x ∈ (search st q).results) := by
  have hfail : ∀ p, retrieverFails st q (determine_search_method q) p →
      _search_platform st q p (determine_search_method q) = [] := by
    intro p hp
    cases p with
    | GOOGLE_DRIVE =>
      rcases hp with h | ⟨r, hr, hrq⟩
      · simp [_search_platform, h]
      · simp [_search_platform, hr, hrq]
    | NOTION =>
      rcases hp with h | ⟨r, hr, hrq⟩
      · simp [_search_platform, h]
      · simp [_search_platform, hr, hrq]
  refine ⟨hfail, ?_, ?_⟩
  · intro hall
    have hd : dispatched st q = [] :=
      flatten_map_eq_nil _ _ (fun p hp => hfail p (hall p hp))
    constructor
    · show pySlice (pySortDesc (dispatched st q)) q.limit = []
      rw [hd]
      show pySlice ([] : List SearchResult) q.limit = []
      simp [pySlice]
    · show ((pySortDesc (dispatched st q)).length : Int) = 0
      rw [hd]
      rfl
  · intro hlen p hp x hx
    have h0 : 0 ≤ q.limit :=
      le_trans (Int.ofNat_nonneg (dispatched st q).length) hlen
    have hmem : x ∈ dispatched st q := by
      unfold dispatched
      exact List.mem_flatten.mpr
        ⟨_search_platform st q p (determine_search_method q),
          List.mem_map_of_mem _ hp, hx⟩
    have hres : (search st q).results =
        (pySortDesc (dispatched st q)).take q.limit.toNat := by
      show pySlice (pySortDesc (dispatched st q)) q.limit = _
      rw [pySlice_of_nonneg h0]
    have htake : (pySortDesc (dispatched st q)).take q.limit.toNat =
        pySortDesc (dispatched st q) := by
      apply List.take_of_length_le
      rw [pySortDesc_length]
      omega
    rw [hres, htake]
    exact ((pySortDesc_perm (dispatched st q)).mem_iff).mpr hmem

/-- C8 witness: with the drive retriever unconfigured and the workspace
retriever failing, the response is empty but well-formed; when the drive
side is down but the workspace retriever succeeds, its result still
appears; symmetrically, when the workspace retriever fails, the drive
retriever's result still appears. -/
theorem c8_partial_failure_witness :
    ((search stAllFail qPlain).results = [] ∧
        (search stAllFail qPlain).total_results = 0) ∧
      r3 ∈ (search stNotionOnly qPlain).results ∧
      r1 ∈ (search stNotionFails qPlain).results := by
  refine ⟨(c8_partial_failure stAllFail qPlain).2.1 ?_,
    (c8_partial_failure stNotionOnly qPlain).2.2 (by decide)
      Platform.NOTION (by decide) r3 (by decide),
    (c8_partial_failure stNotionFails qPlain).2.2 (by decide)
      Platform.GOOGLE_DRIVE (by decide) r1 (by decide)⟩
  intro p hp
  cases p with
  | GOOGLE_DRIVE => exact Or.inl rfl
  | NOTION => exact Or.inr ⟨_, rfl, rfl⟩

end AllFind
